import Mathlib

/-!
Verification of the dropdown widget (`src/widgets/dropdown.cpp`).

We shallowly embed the placement algorithm (`ShowDropDownListAt`), the
dropdown window state (`DropdownWindow`), its hit-testing
(`GetDropDownItem`), click handling (`OnClick`), per-frame mouse loop
(`OnMouseLoop`), focus-loss handling (`OnFocusLost`), and the menu
builder (`ShowDropDownMenu`).

Machine integers: item heights and widths are `uint` in the source and
stay small in practice; we model them as `Nat`. Screen coordinates are
`int`, modelled as `Int`. `std::max(e, 0)` applied to an `int` before
storing into a `uint` is modelled by `Int.toNat`.
-/

namespace Dropdown

/-- A dropdown list item. In the source this is a small class hierarchy
(`DropDownListItem` / `DropDownListStringItem` / `DropDownListIconItem`);
the fields used by the core logic are the `result` code, the `masked`
flag, the virtual `Selectable()` predicate (a per-variant constant:
false for bare separator items, true for string/icon items) and the
intrinsic `Height()` / `Width()` measurements, which are fixed at
construction. We flatten the virtual dispatch into plain fields. -/
structure DropDownItem where
  result : Int
  masked : Bool
  selectable : Bool
  height : Nat
  width : Nat
deriving DecidableEq, Repr

/-- `Dimension` as used by the placement code: a width and a height. -/
structure Dimension where
  width : Nat
  height : Nat
deriving DecidableEq, Repr

/-- The GUI metrics the placement code reads from the environment:
`WidgetDimensions::scaled.fullbevel.Horizontal()`,
`WidgetDimensions::scaled.fullbevel.Vertical()`,
`NWidgetScrollbar::GetVerticalDimension().width`,
`GetMainViewTop()` and `GetMainViewBottom()`. -/
structure GuiEnv where
  bevelHorizontal : Nat
  bevelVertical : Nat
  scrollbarWidth : Nat
  mainViewTop : Int
  mainViewBottom : Int
deriving DecidableEq, Repr

/-- `GetDropDownListDimension`: height is the sum of the item heights,
width the maximum of the item widths. -/
def GetDropDownListDimension (list : List DropDownItem) : Dimension :=
  list.foldl (fun d it => { width := max d.width it.width, height := d.height + it.height })
    ⟨0, 0⟩

/-- Resolved geometry produced by `ShowDropDownListAt`: top position,
final width and height, whether a scrollbar was added and whether the
popup was flipped above the anchor widget. -/
structure Placement where
  top : Int
  width : Nat
  height : Nat
  scroll : Bool
  above : Bool
deriving DecidableEq, Repr

/-- `std::max(GetMainViewBottom() - top - (int)fullbevel.Vertical() * 2, 0)`:
the available height below the preferred top position. -/
def availableHeightBelow (env : GuiEnv) (top : Int) : Nat :=
  (env.mainViewBottom - top - (env.bevelVertical : Int) * 2).toNat

/-- `std::max(w->top + wi_rect.top - GetMainViewTop() - (int)fullbevel.Vertical() * 2, 0)`:
the available height above the anchor widget. -/
def availableHeightAbove (env : GuiEnv) (wTop wiTop : Int) : Nat :=
  (wTop + wiTop - env.mainViewTop - (env.bevelVertical : Int) * 2).toNat

/-- The placement computation of `ShowDropDownListAt` (lines 364-417):
preferred position just below the anchor; flip above when the list does
not fit below and there is more room above; inject a scrollbar and
shrink to a whole number of average-height rows (at least one) when the
list still does not fit on the chosen side. `wTop` is `w->top`; `wiTop`,
`wiBottom`, `wiWidth` come from `wi_rect`. -/
def planDropDownPlacement (env : GuiEnv) (wTop wiTop wiBottom : Int) (wiWidth : Nat)
    (list : List DropDownItem) : Placement :=
  let top := wTop + wiBottom + 1
  let dim0 := GetDropDownListDimension list
  let dimW := dim0.width + env.bevelHorizontal
  let dimH := dim0.height
  let availBelow := availableHeightBelow env top
  if dimH > availBelow then
    let availAbove := availableHeightAbove env wTop wiTop
    let above := availAbove > availBelow
    let avail := if above then availAbove else availBelow
    if dimH > avail then
      let avg := dimH / list.length
      let rows := max (avail / avg) 1
      let h := rows * avg
      let top2 := if above then wTop + wiTop - (h : Int) - (env.bevelVertical : Int) * 2 else top
      { top := top2, width := max wiWidth (dimW + env.scrollbarWidth), height := h,
        scroll := true, above := above }
    else
      let top2 := if above then wTop + wiTop - (dimH : Int) - (env.bevelVertical : Int) * 2 else top
      { top := top2, width := max wiWidth dimW, height := dimH, scroll := false, above := above }
  else
    { top := top, width := max wiWidth dimW, height := dimH, scroll := false, above := false }

/-- Scrollbar state (count of rows, visible capacity, current position).
The `Scrollbar` class lives outside this file in the widget framework. -/
structure Scrollbar where
  cap : Nat
  count : Nat
  pos : Nat
deriving DecidableEq, Repr

/-- Modelled from the spec: `Scrollbar::UpdatePosition` of the external
widget framework shifts the position by a signed difference and clamps
it into the valid range, whose maximum is the count minus the visible
capacity (zero when everything fits); the quirk in the spec says calling
it with a huge positive difference lands on "the maximum (last page)". -/
def Scrollbar.updatePosition (sb : Scrollbar) (d : Int) : Scrollbar :=
  { sb with pos := min ((sb.pos : Int) + d).toNat (sb.count - sb.cap) }

/-- `INT_MAX`, the difference passed to `UpdatePosition` by the
flipped-with-scrollbar quirk. -/
def cppIntMax : Int := 2147483647

/-- The mutable state of a `DropdownWindow`. `top` is the window's final
screen top, `height` the window's height as laid out by the framework,
and `itemsTop` the offset of the item viewport's usable top edge within
the window (`r.top + fullbevel.top` in `GetDropDownItem`), both supplied
by the external layout engine. -/
structure DropdownWindow where
  parent_button : Int
  list : List DropDownItem
  selected_index : Int
  click_delay : Nat
  drag_mode : Bool
  instant_close : Bool
  scrolling : Int
  top : Int
  height : Nat
  itemsTop : Int
  vscroll : Scrollbar
deriving DecidableEq, Repr

/-- The `DropdownWindow` constructor. The source opens with
`assert(!this->list.empty())`; we model the failing assertion as `none`.
The scrollbar capacity is `size.height * list.size() / list_height`
where `list_height` is the total of the item heights, the count is the
number of items, and the position starts at zero. -/
def DropdownWindow.make (list : List DropDownItem) (selected button : Int)
    (instant_close : Bool) (posTop : Int) (size : Dimension) (winHeight : Nat)
    (itemsTop : Int) : Option DropdownWindow :=
  if list.isEmpty then none
  else
    let list_height := (list.map (·.height)).sum
    some
      { parent_button := button
        list := list
        selected_index := selected
        click_delay := 0
        drag_mode := true
        instant_close := instant_close
        scrolling := 0
        top := posTop
        height := winHeight
        itemsTop := itemsTop
        vscroll :=
          { cap := size.height * list.length / list_height
            count := list.length
            pos := 0 } }

/-- Pointer state needed by the window: cursor coordinates and whether
`GetWidgetFromPos` finds a widget of this window under the cursor
(negative return in the source means the cursor is off the window). -/
structure Cursor where
  x : Int
  y : Int
  overWindow : Bool
deriving DecidableEq, Repr

/-- The scanning loop of `GetDropDownItem`: skip `pos` items that are
scrolled out (`if (--pos >= 0) continue;`), then walk the remaining
items subtracting each height from `y` until `y` falls inside an item's
band; a masked or non-selectable item there yields no hit. -/
def getDropDownItemFrom : List DropDownItem → Int → Int → Option Int
  | [], _, _ => none
  | it :: rest, pos, y =>
    if pos - 1 ≥ 0 then getDropDownItemFrom rest (pos - 1) y
    else if y < (it.height : Int) then
      if it.masked || !it.selectable then none else some it.result
    else getDropDownItemFrom rest (pos - 1) (y - (it.height : Int))

/-- `DropdownWindow::GetDropDownItem`: no hit when the cursor is off the
window; otherwise scan from the scrollbar position with the cursor's Y
made relative to the item viewport. Returns the hit item's `result`. -/
def DropdownWindow.getDropDownItem (w : DropdownWindow) (c : Cursor) : Option Int :=
  if c.overWindow = false then none
  else getDropDownItemFrom w.list (w.vscroll.pos : Int) (c.y - w.top - w.itemsTop)

/-- `DropdownWindow::OnClick` on the items widget: a hit arms the close
delay at 4 and records the hit item's result as the selection; no hit
leaves the state unchanged. -/
def DropdownWindow.onClick (w : DropdownWindow) (c : Cursor) : DropdownWindow :=
  match w.getDropDownItem c with
  | some item => { w with click_delay := 4, selected_index := item }
  | none => w

/-- The payload of `OnDropdownClose` as fired by `DropdownWindow::Close`:
the originating button, the selection at close time, and the
instant-close flag at close time. (The cursor point relative to the
parent is also passed in the source; it is computed by the framework
from external state and carries no dropdown logic.) -/
structure CloseMessage where
  button : Int
  selected_index : Int
  instant_close : Bool
deriving DecidableEq, Repr

/-- Callbacks the window delivers to its parent. -/
inductive DropdownEvent where
  | closed (m : CloseMessage)
  | selected (button : Int) (result : Int)
deriving DecidableEq, Repr

/-- The notification `DropdownWindow::Close` sends to the parent. -/
def DropdownWindow.closeMessage (w : DropdownWindow) : CloseMessage :=
  { button := w.parent_button, selected_index := w.selected_index,
    instant_close := w.instant_close }

/-- `DropdownWindow::OnFocusLost`: when not already closing, clear
`instant_close` and close. The result pairs the surviving window (if
any) with the delivered events. -/
def DropdownWindow.onFocusLost (w : DropdownWindow) (closing : Bool) :
    Option DropdownWindow × List DropdownEvent :=
  if closing = false then
    (none, [DropdownEvent.closed { w with instant_close := false }.closeMessage])
  else (some w, [])

/-- `DropdownWindow::OnMouseLoop`, one frame: first the close-delay
countdown (`if (click_delay != 0 && --click_delay == 0)` closes and
fires `OnDropdownSelect`); otherwise, in drag mode, a button release
either closes instantly (no hit, `instant_close`), leaves the window
open (no hit, not instant), or arms a delay of 2 and updates the
selection (hit); while the button stays down, edge proximity arms
one-shot autoscroll and a hit merely updates the hover selection. -/
def DropdownWindow.onMouseLoop (w : DropdownWindow) (c : Cursor)
    (leftButtonClicked : Bool) : Option DropdownWindow × List DropdownEvent :=
  if w.click_delay ≠ 0 ∧ w.click_delay - 1 = 0 then
    (none, [DropdownEvent.closed w.closeMessage,
            DropdownEvent.selected w.parent_button w.selected_index])
  else
    let w1 : DropdownWindow := { w with click_delay := w.click_delay - 1 }
    if w1.drag_mode then
      if leftButtonClicked = false then
        let w2 : DropdownWindow := { w1 with drag_mode := false }
        match w2.getDropDownItem c with
        | none =>
          if w2.instant_close then (none, [DropdownEvent.closed w2.closeMessage])
          else (some w2, [])
        | some item =>
          let w3 : DropdownWindow := { w2 with click_delay := 2 }
          (some (if w3.selected_index ≠ item then { w3 with selected_index := item } else w3), [])
      else
        if c.y ≤ w1.top + 2 then (some { w1 with scrolling := -1 }, [])
        else if c.y ≥ w1.top + (w1.height : Int) - 2 then (some { w1 with scrolling := 1 }, [])
        else
          match w1.getDropDownItem c with
          | none => (some w1, [])
          | some item =>
            (some (if w1.selected_index ≠ item then { w1 with selected_index := item } else w1), [])
    else (some w1, [])

/-- Run `OnMouseLoop` over a sequence of frames (cursor state and left
button state per frame), collecting delivered events. A closed window
receives no further frames. -/
def runMouseLoops : Option DropdownWindow → List (Cursor × Bool) →
    Option DropdownWindow × List DropdownEvent
  | none, _ => (none, [])
  | some w, [] => (some w, [])
  | some w, (c, b) :: rest =>
    let r := w.onMouseLoop c b
    let r2 := runMouseLoops r.1 rest
    (r2.1, r.2 ++ r2.2)

/-- `ShowDropDownListAt`: plan the placement, construct the window (the
framework lays out the window height as the item area plus bevels), and,
when the popup was flipped above with a scrollbar, push the scrollbar to
its very bottom with `UpdatePosition(INT_MAX)`. -/
def ShowDropDownListAt (env : GuiEnv) (wTop wiTop wiBottom : Int) (wiWidth : Nat)
    (list : List DropDownItem) (selected button : Int) (instant_close : Bool)
    (itemsTop : Int) : Option DropdownWindow :=
  let p := planDropDownPlacement env wTop wiTop wiBottom wiWidth list
  match DropdownWindow.make list selected button instant_close p.top
      ⟨p.width, p.height⟩ (p.height + env.bevelVertical * 2) itemsTop with
  | none => none
  | some dw =>
    some (if p.above ∧ p.scroll then { dw with vscroll := dw.vscroll.updatePosition cppIntMax }
          else dw)

/-- The item `ShowDropDownMenu` builds for index `i`: a
`DropDownListStringItem` with `result := i` and
`masked := HasBit(disabled_mask, i)`. String items are selectable; their
measured height and width come from external string metrics, passed in
as `ih` and `iw`. -/
def menuItem (disabled_mask : Nat) (ih iw i : Nat) : DropDownItem :=
  { result := (i : Int), masked := disabled_mask.testBit i, selectable := true,
    height := ih, width := iw }

/-- The list-building loop of `ShowDropDownMenu`, carrying the running
index `i`: entries whose bit is set in `hidden_mask` are skipped, the
rest become items via `menuItem`. The `strings` list stands for the
`INVALID_STRING_ID`-termed array (the sentinel itself excluded). -/
def buildDropDownMenuListFrom (disabled_mask hidden_mask ih iw : Nat) :
    List Nat → Nat → List DropDownItem
  | [], _ => []
  | _ :: rest, i =>
    if hidden_mask.testBit i then
      buildDropDownMenuListFrom disabled_mask hidden_mask ih iw rest (i + 1)
    else
      menuItem disabled_mask ih iw i ::
        buildDropDownMenuListFrom disabled_mask hidden_mask ih iw rest (i + 1)

/-- The list built by `ShowDropDownMenu` from its string array and the
disabled/hidden bitmasks. -/
def buildDropDownMenuList (strings : List Nat) (disabled_mask hidden_mask ih iw : Nat) :
    List DropDownItem :=
  buildDropDownMenuListFrom disabled_mask hidden_mask ih iw strings 0

/-- `ShowDropDownMenu`: build the filtered list; when it is non-empty,
show it via `ShowDropDownList`, which forwards to `ShowDropDownListAt`
with `instant_close` left at its default `false`; when every entry was
hidden, show nothing. -/
def ShowDropDownMenu (env : GuiEnv) (wTop wiTop wiBottom : Int) (wiWidth : Nat)
    (strings : List Nat) (selected button : Int) (disabled_mask hidden_mask ih iw : Nat)
    (itemsTop : Int) : Option DropdownWindow :=
  let list := buildDropDownMenuList strings disabled_mask hidden_mask ih iw
  if list.isEmpty then none
  else ShowDropDownListAt env wTop wiTop wiBottom wiWidth list selected button false itemsTop

end Dropdown

namespace Dropdown

/-- Items used by the spec's hit-test example: heights 10, 20, 5. -/
def demoHitList : List DropDownItem :=
  [⟨0, false, true, 10, 10⟩, ⟨1, false, true, 20, 10⟩, ⟨2, false, true, 5, 10⟩]

/-- A single masked (disabled but visible) item. -/
def demoMaskedList : List DropDownItem := [⟨7, true, true, 10, 10⟩]

/-- A window showing the masked item, used to exercise click handling. -/
def demoMaskedWindow : DropdownWindow :=
  { parent_button := 3, list := demoMaskedList, selected_index := -1, click_delay := 0,
    drag_mode := false, instant_close := false, scrolling := 0, top := 0,
    height := 10, itemsTop := 0, vscroll := ⟨1, 1, 0⟩ }

/-- A cursor over the window, 3 pixels into the item viewport. -/
def demoCursor3 : Cursor := ⟨0, 3, true⟩

lemma getDropDownItemFrom_sound (l : List DropDownItem) :
    ∀ (p y r : Int), getDropDownItemFrom l p y = some r →
      ∃ it ∈ l, it.result = r ∧ it.masked = false ∧ it.selectable = true := by
  induction l with
  | nil => intro p y r h; simp [getDropDownItemFrom] at h
  | cons it rest ih =>
    intro p y r h
    rw [getDropDownItemFrom] at h
    split at h
    · obtain ⟨it', hm, hr⟩ := ih _ _ _ h
      exact ⟨it', List.mem_cons_of_mem _ hm, hr⟩
    · split at h
      · split at h
        · exact absurd h (by simp)
        · rename_i hmask
          have h1 : it.masked = false := by
            cases hmm : it.masked
            · rfl
            · rw [hmm] at hmask; simp at hmask
          have h2 : it.selectable = true := by
            cases hss : it.selectable
            · rw [hss] at hmask; simp at hmask
            · rfl
          exact ⟨it, List.mem_cons_self _ _, Option.some_inj.mp h, h1, h2⟩
      · obtain ⟨it', hm, hr⟩ := ih _ _ _ h
        exact ⟨it', List.mem_cons_of_mem _ hm, hr⟩

/-- Claim C4: hit-testing walks the list from the scroll offset and
accumulates heights: for heights [10, 20, 5] at offset 0, Y=5 hits item
0, Y=15 hits item 1, Y=32 hits item 2 and Y=35 hits nothing; a masked
item under the pointer yields no hit, every reported hit comes from an
unmasked selectable item, and a no-hit click leaves `selected_index`
unchanged. -/
theorem hit_test_monotone_and_masked :
    (getDropDownItemFrom demoHitList 0 5 = some 0 ∧
     getDropDownItemFrom demoHitList 0 15 = some 1 ∧
     getDropDownItemFrom demoHitList 0 32 = some 2 ∧
     getDropDownItemFrom demoHitList 0 35 = none ∧
     getDropDownItemFrom demoMaskedList 0 3 = none) ∧
    (∀ (l : List DropDownItem) (p y r : Int),
       getDropDownItemFrom l p y = some r →
       ∃ it ∈ l, it.result = r ∧ it.masked = false ∧ it.selectable = true) ∧
    (∀ (w : DropdownWindow) (c : Cursor), w.getDropDownItem c = none →
       (w.onClick c).selected_index = w.selected_index) := by
  refine ⟨by decide, getDropDownItemFrom_sound, ?_⟩
  intro w c h
  unfold DropdownWindow.onClick
  rw [h]

/-- Witness for C4: clicking the masked demo item does not change the
selection. -/
theorem hit_test_monotone_and_masked_witness :
    (demoMaskedWindow.onClick demoCursor3).selected_index =
      demoMaskedWindow.selected_index :=
  hit_test_monotone_and_masked.2.2 demoMaskedWindow demoCursor3 (by decide)

/-- Claim C9 (as modelled): the constructor's `assert(!list.empty())`
fails exactly on the empty list; every non-empty list passes it and the
window is constructed. -/
theorem empty_list_construction_fails (list : List DropDownItem) (selected button : Int)
    (ic : Bool) (posTop : Int) (size : Dimension) (winHeight : Nat) (itemsTop : Int) :
    DropdownWindow.make list selected button ic posTop size winHeight itemsTop = none ↔
      list = [] := by
  unfold DropdownWindow.make
  split
  · rename_i h
    simp only [List.isEmpty_iff] at h
    simp [h]
  · rename_i h
    simp only [List.isEmpty_iff] at h
    simp [h]

/-- Claim C2 (corrected): `OnFocusLost` while not already closing closes
with `instant_close` forced to FALSE in the notification, whatever the
flag was before. -/
theorem focus_lost_forces_instant_close_false (w : DropdownWindow) :
    w.onFocusLost false =
      (none, [DropdownEvent.closed
        { button := w.parent_button, selected_index := w.selected_index,
          instant_close := false }]) := rfl

/-- A window with `instant_close = true` used to refute claim C2 as
stated. -/
def demoFocusWindow : DropdownWindow :=
  { parent_button := 3, list := demoMaskedList, selected_index := 42, click_delay := 0,
    drag_mode := false, instant_close := true, scrolling := 0, top := 0,
    height := 10, itemsTop := 0, vscroll := ⟨1, 1, 0⟩ }

/-- Counterexample to claim C2 as stated: a window with
`instant_close = true` that loses focus before closing delivers a close
notification whose `instant_close` is false, not true. -/
theorem focus_lost_instant_close_cex :
    demoFocusWindow.instant_close = true ∧
    demoFocusWindow.onFocusLost false =
      (none, [DropdownEvent.closed
        { button := 3, selected_index := 42, instant_close := false }]) := by decide

/-- Claim C7: releasing the initiating button while dragging with no row
under the pointer and `instant_close` set closes immediately, reporting
the unchanged `selected_index` (and `instant_close = true`). -/
theorem instant_close_no_hit (w : DropdownWindow) (c : Cursor)
    (hdrag : w.drag_mode = true) (hdelay : w.click_delay = 0)
    (hic : w.instant_close = true) (hhit : w.getDropDownItem c = none) :
    w.onMouseLoop c false =
      (none, [DropdownEvent.closed
        { button := w.parent_button, selected_index := w.selected_index,
          instant_close := true }]) := by
  simp only [DropdownWindow.getDropDownItem] at hhit
  simp [DropdownWindow.onMouseLoop, DropdownWindow.getDropDownItem,
    DropdownWindow.closeMessage, hdelay, hdrag, hic, hhit]

/-- A window in drag mode with `instant_close` set, hovering nothing. -/
def demoDragWindow : DropdownWindow :=
  { demoFocusWindow with drag_mode := true }

/-- A cursor far below the window, hitting nothing. -/
def demoCursorFar : Cursor := ⟨0, 1000, false⟩

/-- Witness for C7 at a concrete window and cursor. -/
theorem instant_close_no_hit_witness :
    demoDragWindow.onMouseLoop demoCursorFar false =
      (none, [DropdownEvent.closed
        { button := 3, selected_index := 42, instant_close := true }]) :=
  instant_close_no_hit demoDragWindow demoCursorFar (by decide) (by decide) (by decide)
    (by decide)

end Dropdown

namespace Dropdown

/-- The available height on the side the placement chose: above when the
popup was flipped, below otherwise. -/
def chosenAvailableHeight (env : GuiEnv) (wTop wiTop wiBottom : Int) (wiWidth : Nat)
    (list : List DropDownItem) : Nat :=
  if (planDropDownPlacement env wTop wiTop wiBottom wiWidth list).above then
    availableHeightAbove env wTop wiTop
  else availableHeightBelow env (wTop + wiBottom + 1)

lemma rows_mul_avg_le (avail avg : Nat) : max (avail / avg) 1 * avg ≤ max avail avg := by
  rcases Nat.eq_zero_or_pos (avail / avg) with h | h
  · rw [h]
    simp
  · rw [max_eq_left h]
    exact le_trans (Nat.div_mul_le_self avail avg) (le_max_left _ _)

lemma avg_le_rows_mul_avg (avail avg : Nat) : avg ≤ max (avail / avg) 1 * avg := by
  calc avg = 1 * avg := (one_mul avg).symm
  _ ≤ max (avail / avg) 1 * avg := Nat.mul_le_mul_right avg (le_max_right _ 1)

/-- Claim C1 (corrected): whenever the natural height fits in the
available height of the chosen side there is no scrollbar and the
resolved height is the natural height; whenever it does not fit, a
scrollbar is added and the resolved height is at most the larger of the
available height and one average row height. -/
theorem scrollbar_injection (env : GuiEnv) (wTop wiTop wiBottom : Int) (wiWidth : Nat)
    (list : List DropDownItem) :
    ((GetDropDownListDimension list).height ≤
        chosenAvailableHeight env wTop wiTop wiBottom wiWidth list →
      (planDropDownPlacement env wTop wiTop wiBottom wiWidth list).scroll = false ∧
      (planDropDownPlacement env wTop wiTop wiBottom wiWidth list).height =
        (GetDropDownListDimension list).height) ∧
    (chosenAvailableHeight env wTop wiTop wiBottom wiWidth list <
        (GetDropDownListDimension list).height →
      (planDropDownPlacement env wTop wiTop wiBottom wiWidth list).scroll = true ∧
      (planDropDownPlacement env wTop wiTop wiBottom wiWidth list).height ≤
        max (chosenAvailableHeight env wTop wiTop wiBottom wiWidth list)
          ((GetDropDownListDimension list).height / list.length)) := by
  unfold chosenAvailableHeight planDropDownPlacement
  simp only []
  split_ifs <;> simp_all <;>
    first
      | omega
      | exact le_max_iff.mp (rows_mul_avg_le _ _)

end Dropdown

namespace Dropdown

/-- A viewport offering 5 pixels below and 0 above. -/
def envTight : GuiEnv := ⟨0, 0, 0, 0, 5⟩

/-- A viewport offering 100 pixels below. -/
def envRoomy : GuiEnv := ⟨0, 0, 0, 0, 100⟩

/-- A single item 10 pixels tall. -/
def demoTallList : List DropDownItem := [⟨0, false, true, 10, 10⟩]

/-- Counterexample to claim C1 as stated: with 5 pixels available on the
chosen side and a 10-pixel list, a scrollbar is injected but the
resolved height is 10, exceeding the available height (the minimum-one-
row rule wins). -/
theorem scrollbar_injection_cex :
    chosenAvailableHeight envTight 0 0 (-1) 10 demoTallList = 5 ∧
    (GetDropDownListDimension demoTallList).height = 10 ∧
    (planDropDownPlacement envTight 0 0 (-1) 10 demoTallList).scroll = true ∧
    ¬((planDropDownPlacement envTight 0 0 (-1) 10 demoTallList).height ≤
        chosenAvailableHeight envTight 0 0 (-1) 10 demoTallList) := by decide

/-- Witness for C1: with 100 pixels available the 10-pixel list fits, no
scrollbar, resolved height is the natural height. -/
theorem scrollbar_injection_witness :
    (planDropDownPlacement envRoomy 0 0 (-1) 10 demoTallList).scroll = false ∧
    (planDropDownPlacement envRoomy 0 0 (-1) 10 demoTallList).height =
      (GetDropDownListDimension demoTallList).height :=
  (scrollbar_injection envRoomy 0 0 (-1) 10 demoTallList).1 (by decide)

lemma GetDropDownListDimension_height (list : List DropDownItem) :
    (GetDropDownListDimension list).height = (list.map (·.height)).sum := by
  suffices h : ∀ d : Dimension,
      (list.foldl (fun d it => { width := max d.width it.width, height := d.height + it.height })
        d).height = d.height + (list.map (·.height)).sum by
    simpa using h ⟨0, 0⟩
  induction list with
  | nil => intro d; simp
  | cons it rest ih =>
    intro d
    simp only [List.foldl_cons, List.map_cons, List.sum_cons]
    rw [ih]
    simp
    omega

lemma length_le_sum_heights (list : List DropDownItem)
    (hpos : ∀ it ∈ list, 0 < it.height) :
    list.length ≤ (list.map (·.height)).sum := by
  induction list with
  | nil => simp
  | cons it rest ih =>
    simp only [List.length_cons, List.map_cons, List.sum_cons]
    have h1 : 0 < it.height := hpos it (List.mem_cons_self _ _)
    have h2 : rest.length ≤ (rest.map (·.height)).sum :=
      ih (fun x hx => hpos x (List.mem_cons_of_mem _ hx))
    omega

lemma one_le_avg_height (list : List DropDownItem) (hne : list ≠ [])
    (hpos : ∀ it ∈ list, 0 < it.height) :
    1 ≤ (GetDropDownListDimension list).height / list.length := by
  have hlen : 0 < list.length := List.length_pos.mpr hne
  rw [Nat.le_div_iff_mul_le hlen, one_mul, GetDropDownListDimension_height]
  exact length_le_sum_heights list hpos

/-- Claim C3: for a non-empty list the resolved height is at least one
average row height (the natural height divided by the item count), and
with positive item heights (true of every real item) the resolved height
is positive — never a zero- or negative-height popup. -/
theorem min_one_row (env : GuiEnv) (wTop wiTop wiBottom : Int) (wiWidth : Nat)
    (list : List DropDownItem) (hne : list ≠ []) :
    (GetDropDownListDimension list).height / list.length ≤
      (planDropDownPlacement env wTop wiTop wiBottom wiWidth list).height ∧
    ((∀ it ∈ list, 0 < it.height) →
      0 < (planDropDownPlacement env wTop wiTop wiBottom wiWidth list).height) := by
  have hlen : 0 < list.length := List.length_pos.mpr hne
  unfold planDropDownPlacement
  simp only []
  split_ifs <;>
    refine ⟨?_, fun hp => ?_⟩ <;>
      first
        | exact Nat.div_le_self _ _
        | exact avg_le_rows_mul_avg _ _
        | exact lt_of_lt_of_le hlen
            ((GetDropDownListDimension_height list) ▸ length_le_sum_heights list hp)
        | exact lt_of_lt_of_le Nat.zero_lt_one
            (le_trans (one_le_avg_height list hne hp) (avg_le_rows_mul_avg _ _))

/-- Witness for C3 at a concrete tight viewport: the single 10-pixel
item still yields a 10-pixel-high popup with only 5 pixels available. -/
theorem min_one_row_witness :
    (GetDropDownListDimension demoTallList).height / demoTallList.length ≤
      (planDropDownPlacement envTight 0 0 (-1) 10 demoTallList).height ∧
    ((∀ it ∈ demoTallList, 0 < it.height) →
      0 < (planDropDownPlacement envTight 0 0 (-1) 10 demoTallList).height) :=
  min_one_row envTight 0 0 (-1) 10 demoTallList (by decide)

end Dropdown

namespace Dropdown

lemma runMouseLoops_none (frames : List (Cursor × Bool)) :
    runMouseLoops none frames = (none, []) := by
  cases frames <;> rfl

/-- Claim C5: clicking an unmasked selectable row while not dragging
arms the fixed close delay of 4; exactly 4 mouse-loop frames later
(whatever the pointer does meanwhile) the window closes and
`OnDropdownSelect` fires once with that row's result; no select event
fires in the first 3 frames and none can fire afterwards (the window is
gone for any further frames). -/
theorem close_delay_commit (w : DropdownWindow) (c : Cursor) (item : Int)
    (hdrag : w.drag_mode = false) (hhit : w.getDropDownItem c = some item)
    (f1 f2 f3 f4 : Cursor × Bool) (rest : List (Cursor × Bool)) :
    runMouseLoops (some (w.onClick c)) (f1 :: f2 :: f3 :: f4 :: rest) =
      (none,
       [DropdownEvent.closed
          { button := w.parent_button, selected_index := item,
            instant_close := w.instant_close },
        DropdownEvent.selected w.parent_button item]) ∧
    (runMouseLoops (some (w.onClick c)) [f1, f2, f3]).2 = [] := by
  obtain ⟨c1, b1⟩ := f1
  obtain ⟨c2, b2⟩ := f2
  obtain ⟨c3, b3⟩ := f3
  obtain ⟨c4, b4⟩ := f4
  unfold DropdownWindow.onClick
  rw [hhit]
  simp [runMouseLoops, DropdownWindow.onMouseLoop, hdrag,
    DropdownWindow.closeMessage, runMouseLoops_none]

/-- The window of the close-delay scenario: idle (not dragging) over the
spec's three-item list. -/
def demoIdleWindow : DropdownWindow :=
  { parent_button := 3, list := demoHitList, selected_index := -1, click_delay := 0,
    drag_mode := false, instant_close := false, scrolling := 0, top := 0,
    height := 35, itemsTop := 0, vscroll := ⟨3, 3, 0⟩ }

/-- A cursor over the window at Y = 15, over item 1. -/
def demoCursor15 : Cursor := ⟨0, 15, true⟩

/-- Witness for C5: the concrete idle window, clicked on item 1, closes
after exactly 4 frames with a single select of result 1. -/
theorem close_delay_commit_witness :
    runMouseLoops (some (demoIdleWindow.onClick demoCursor15))
        ((demoCursor15, false) :: (demoCursor15, false) :: (demoCursor15, false) ::
         (demoCursor15, false) :: []) =
      (none,
       [DropdownEvent.closed
          { button := 3, selected_index := 1, instant_close := false },
        DropdownEvent.selected 3 1]) ∧
    (runMouseLoops (some (demoIdleWindow.onClick demoCursor15))
        [(demoCursor15, false), (demoCursor15, false), (demoCursor15, false)]).2 = [] :=
  close_delay_commit demoIdleWindow demoCursor15 1 (by decide) (by decide)
    (demoCursor15, false) (demoCursor15, false) (demoCursor15, false)
    (demoCursor15, false) []

/-- Claim C6: after `ShowDropDownListAt`, the initial scroll offset is
the scrollbar's maximum (count minus capacity) exactly when the popup
was flipped above with a scrollbar, and zero otherwise. The item count
is at most `INT_MAX` (as in any real list). -/
theorem flipped_scroll_initial_offset (env : GuiEnv) (wTop wiTop wiBottom : Int)
    (wiWidth : Nat) (list : List DropDownItem) (selected button : Int) (ic : Bool)
    (itemsTop : Int) (w : DropdownWindow)
    (hlen : list.length ≤ 2147483647)
    (hw : ShowDropDownListAt env wTop wiTop wiBottom wiWidth list selected button ic
            itemsTop = some w) :
    w.vscroll.pos =
      if (planDropDownPlacement env wTop wiTop wiBottom wiWidth list).above = true ∧
          (planDropDownPlacement env wTop wiTop wiBottom wiWidth list).scroll = true
      then w.vscroll.count - w.vscroll.cap else 0 := by
  unfold ShowDropDownListAt DropdownWindow.make at hw
  by_cases he : list.isEmpty
  · simp [he] at hw
  · simp only [he, if_false, Bool.false_eq_true] at hw
    split at hw
    · rename_i hcond
      rw [Option.some_inj] at hw
      subst hw
      rw [if_pos hcond]
      unfold Scrollbar.updatePosition cppIntMax
      simp only []
      have h1 : (((0 : Nat) : Int) + 2147483647).toNat = 2147483647 := by decide
      rw [h1]
      exact Nat.min_eq_right (le_trans (Nat.sub_le _ _) hlen)
    · rename_i hcond
      rw [Option.some_inj] at hw
      subst hw
      rw [if_neg hcond]

end Dropdown

namespace Dropdown

/-- Three items of height 10 each, taller together than the tight
viewport. -/
def demoThreeList : List DropDownItem :=
  [⟨0, false, true, 10, 10⟩, ⟨1, false, true, 10, 10⟩, ⟨2, false, true, 10, 10⟩]

/-- The window produced for `demoThreeList` anchored near the viewport
bottom: flipped above, scrollbar, capacity 2 of 3, offset forced to 1
(the maximum). -/
def demoFlipWindow : DropdownWindow :=
  { parent_button := 3, list := demoThreeList, selected_index := -1, click_delay := 0,
    drag_mode := true, instant_close := false, scrolling := 0, top := 5,
    height := 20, itemsTop := 0, vscroll := ⟨2, 3, 1⟩ }

/-- Witness for C6: anchored at the bottom of the tight viewport, the
three-item list flips above with a scrollbar and starts at the maximum
offset 1 = count 3 - capacity 2. -/
theorem flipped_scroll_initial_offset_witness :
    demoFlipWindow.vscroll.pos =
      if (planDropDownPlacement envTight 25 0 2 10 demoThreeList).above = true ∧
          (planDropDownPlacement envTight 25 0 2 10 demoThreeList).scroll = true
      then demoFlipWindow.vscroll.count - demoFlipWindow.vscroll.cap else 0 :=
  flipped_scroll_initial_offset envTight 25 0 2 10 demoThreeList (-1) 3 false 0
    demoFlipWindow (by decide) (by decide)

lemma mem_buildDropDownMenuListFrom (d h ih iw : Nat) (strings : List Nat) :
    ∀ (k : Nat) (it : DropDownItem),
      it ∈ buildDropDownMenuListFrom d h ih iw strings k ↔
        ∃ j, j < strings.length ∧ h.testBit (k + j) = false ∧
          it = menuItem d ih iw (k + j) := by
  induction strings with
  | nil => intro k it; simp [buildDropDownMenuListFrom]
  | cons s rest ihr =>
    intro k it
    rw [buildDropDownMenuListFrom]
    by_cases hb : h.testBit k
    · rw [if_pos hb]
      rw [ihr (k + 1)]
      constructor
      · rintro ⟨j, hj, hbit, heq⟩
        have hk : k + 1 + j = k + (j + 1) := by omega
        rw [hk] at hbit heq
        exact ⟨j + 1, by simp [List.length_cons]; omega, hbit, heq⟩
      · rintro ⟨j, hj, hbit, heq⟩
        match j with
        | 0 =>
          rw [Nat.add_zero] at hbit
          rw [hb] at hbit
          exact absurd hbit (by simp)
        | j' + 1 =>
          have hk : k + (j' + 1) = k + 1 + j' := by omega
          rw [hk] at hbit heq
          exact ⟨j', by simp at hj; omega, hbit, heq⟩
    · rw [if_neg hb]
      rw [List.mem_cons, ihr (k + 1)]
      constructor
      · rintro (heq | ⟨j, hj, hbit, hit⟩)
        · refine ⟨0, by simp, ?_, by rwa [Nat.add_zero]⟩
          rw [Nat.add_zero]
          exact Bool.not_eq_true _ ▸ (by simpa using hb)
        · have hk : k + 1 + j = k + (j + 1) := by omega
          rw [hk] at hbit hit
          exact ⟨j + 1, by simp [List.length_cons]; omega, hbit, hit⟩
      · rintro ⟨j, hj, hbit, hit⟩
        match j with
        | 0 =>
          rw [Nat.add_zero] at hit
          exact Or.inl hit
        | j' + 1 =>
          have hk : k + (j' + 1) = k + 1 + j' := by omega
          rw [hk] at hbit hit
          exact Or.inr ⟨j', by simp at hj; omega, hbit, hit⟩

/-- Claim C8: an item is in the list built by `ShowDropDownMenu` exactly
when its index is in range and not hidden; present items carry the
original enumeration index as `result` and are masked exactly when their
disabled bit is set. -/
theorem menu_builder_filters (strings : List Nat) (d h ih iw : Nat) (it : DropDownItem) :
    it ∈ buildDropDownMenuList strings d h ih iw ↔
      ∃ i, i < strings.length ∧ h.testBit i = false ∧
        it = { result := (i : Int), masked := d.testBit i, selectable := true,
               height := ih, width := iw } := by
  unfold buildDropDownMenuList
  rw [mem_buildDropDownMenuListFrom]
  simp [menuItem]

/-- Claim C10: when every entry's hidden bit is set, the built list is
empty and `ShowDropDownMenu` shows nothing — in particular the
empty-list construction assertion is never exercised, the guard returns
first. -/
theorem all_hidden_shows_nothing (env : GuiEnv) (wTop wiTop wiBottom : Int)
    (wiWidth : Nat) (strings : List Nat) (selected button : Int)
    (d h ih iw : Nat) (itemsTop : Int)
    (hall : ∀ i, i < strings.length → h.testBit i = true) :
    buildDropDownMenuList strings d h ih iw = [] ∧
    ShowDropDownMenu env wTop wiTop wiBottom wiWidth strings selected button d h ih iw
      itemsTop = none := by
  have hempty : buildDropDownMenuList strings d h ih iw = [] := by
    rw [List.eq_nil_iff_forall_not_mem]
    intro it hmem
    rw [buildDropDownMenuList, mem_buildDropDownMenuListFrom] at hmem
    obtain ⟨j, hj, hbit, _⟩ := hmem
    rw [Nat.zero_add] at hbit
    rw [hall j hj] at hbit
    exact absurd hbit (by simp)
  refine ⟨hempty, ?_⟩
  unfold ShowDropDownMenu
  simp [hempty]

/-- Witness for C10: one entry, hidden bit 0 set: nothing is shown. -/
theorem all_hidden_shows_nothing_witness :
    buildDropDownMenuList [100] 0 1 7 9 = [] ∧
    ShowDropDownMenu envTight 0 0 (-1) 10 [100] (-1) 3 0 1 7 9 0 = none :=
  all_hidden_shows_nothing envTight 0 0 (-1) 10 [100] (-1) 3 0 1 7 9 0
    (by decide)

end Dropdown
